/-
  Verification of the LUNA backend message-buffering and outbound-automation
  subsystem (webhook debounce buffer, AI reply pipeline, LoopManager).

  Shallow embedding of the Python source:
    - app/routes/webhook.py   (debounce buffer, process_message, tool calls)
    - app/services/loop.py    (contact queue, totals, LoopManager)
    - app/routes/admin.py     (legacy automation loop template rendering)
-/
import Mathlib

namespace Luna

/-! ## Python-style helpers -/

/-- One fuel-bounded step list of Python `str.replace`: scan left to right;
    at each position either consume a (non-overlapping) occurrence of the
    pattern and emit the replacement, or emit one character.  `fuel` is an
    upper bound on the scan steps; `s.length` always suffices. -/
def replaceAllAux (pat rep : List Char) : Nat → List Char → List Char
  | _, [] => []
  | 0, s => s
  | Nat.succ fuel, c :: rest =>
    if pat ≠ [] ∧ pat.isPrefixOf (c :: rest) then
      rep ++ replaceAllAux pat rep fuel ((c :: rest).drop pat.length)
    else c :: replaceAllAux pat rep fuel rest

/-- Python `s.replace(pat, rep)` for a non-empty pattern: replace every
    occurrence, scanning left to right without overlap.  (The empty-pattern
    corner of Python never arises here: every call site passes a non-empty
    literal.) -/
def pyReplace (s pat rep : String) : String :=
  String.mk (replaceAllAux pat.toList rep.toList s.toList.length s.toList)

/-- Python `str.upper` restricted to what `str.upper` and `Char.toUpper`
    agree on (ASCII letters; the menu choices here are plain ASCII). -/
def pyUpper (s : String) : String :=
  String.mk (s.toList.map Char.toUpper)

/-- Python `dict.get(k)` over an association list whose values may be SQL NULL
    (`Option String`): a missing key yields `none`, a present key yields the
    stored value (which may itself be `none`, i.e. Python `None`). -/
def pyGet (d : List (String × Option String)) (k : String) : Option String :=
  match d.lookup k with
  | some v => v
  | none => none

/-- Python `dict.get(k, default)`. -/
def pyGetD (d : List (String × Option String)) (k : String)
    (dflt : Option String) : Option String :=
  match d.lookup k with
  | some v => v
  | none => dflt

/-! ## Tool calls (webhook.py, `process_message` lines 530-609)

The OpenAI response carries a list of tool calls; each has a `type` field and a
function `name` plus JSON arguments.  We model the arguments post-parsing. -/

structure ToolArgs where
  message : Option String
  text : Option String
  choices : Option (List String)
  footerText : Option String
deriving DecidableEq, Repr

structure ToolCall where
  ctype : String
  fname : String
  args : ToolArgs
deriving DecidableEq, Repr

/-- The partitioning loop of `process_message` (webhook.py lines 535-544):
    walk the tool calls in order, skip entries whose `type` is not
    `"function"`, and append each call to the non-handoff or the handoff
    bucket. -/
def splitCalls : List ToolCall → List ToolCall × List ToolCall
  | [] => ([], [])
  | c :: rest =>
    let p := splitCalls rest
    if c.ctype ≠ "function" then p
    else if c.fname = "handoff" then (p.1, c :: p.2)
    else (c :: p.1, p.2)

/-- `ordered_calls = non_handoff_calls + handoff_calls` (webhook.py line 547). -/
def orderCalls (calls : List ToolCall) : List ToolCall :=
  (splitCalls calls).1 ++ (splitCalls calls).2

/-- A call the execution loop treats as a handoff. -/
def isHandoffCall (c : ToolCall) : Bool :=
  c.ctype = "function" && c.fname = "handoff"

/-- A call the execution loop treats as a non-handoff function call. -/
def isNonHandoffCall (c : ToolCall) : Bool :=
  c.ctype = "function" && c.fname ≠ "handoff"

/-! ## Instance configuration (webhook.py, `get_instance_config` lines 109-154)

The SQL row selected from `instances`; nullable columns are `Option String`. -/

structure InstanceRow where
  id : String
  uazapiHost : Option String
  uazapiToken : Option String
  prompt : Option String
  status : Option String
  redirectPhone : Option String
  adminStatus : Option String
deriving DecidableEq, Repr

/-- Python truthiness of a nullable string: `None` and `""` are falsy. -/
def truthyStr : Option String → Bool
  | none => false
  | some s => s ≠ ""

/-- `x or default` on a nullable string (webhook.py line 401). -/
def pyOrStr (o : Option String) (d : String) : String :=
  match o with
  | some s => if s = "" then d else s
  | none => d

/-- `get_instance_config`: `None` when the row is absent or has no (truthy)
    prompt; otherwise the dict literally built at webhook.py lines 143-151,
    with exactly these seven keys. -/
def getInstanceConfig (row : Option InstanceRow) :
    Option (List (String × Option String)) :=
  match row with
  | none => none
  | some r =>
    if truthyStr r.prompt then
      some [("id", some r.id), ("host", r.uazapiHost), ("token", r.uazapiToken),
            ("prompt", r.prompt), ("status", r.status),
            ("redirect_phone", r.redirectPhone), ("admin_status", r.adminStatus)]
    else none

/-! ## AI reply pipeline effects (webhook.py, `process_message` lines 413-637) -/

/-- Observable side effects of one `process_message` run:
    `sendText` = `send_whatsapp_text` gateway call,
    `saveMsg`  = `save_message` (messages/chats store),
    `saveMem`  = `save_to_ai_memory` (ai_memory store, read back by
    `get_history`). -/
inductive Effect
  | sendText (host token : Option String) (recipient text : String)
  | saveMsg (direction content : String)
  | saveMem (role content : String)
deriving DecidableEq, Repr

/-- Numbered menu body: `f"{i}. {choice.upper()}\n"` for each choice,
    enumerated from 1 (webhook.py lines 582-583). -/
def renderMenuLines (choices : List String) (start : Nat) : String :=
  match choices with
  | [] => ""
  | c :: rest => toString start ++ ". " ++ pyUpper c ++ "\n" ++ renderMenuLines rest (start + 1)

/-- Rendered menu text (webhook.py lines 581-584): question, blank line,
    numbered upper-cased choices, blank line, footer. -/
def renderMenu (q : String) (choices : List String) (footer : String) : String :=
  q ++ "\n\n" ++ renderMenuLines choices 1 ++ "\n" ++ footer

/-- Fixed-format handoff notification (webhook.py line 407). -/
def handoffMessage (number : String) : String :=
  "🔔 Novo lead para contato\n\nLead WhatsApp: " ++ number ++
  "\n\nStatus: Demonstrou interesse e autorizou contato."

/-- Effects of one ordered tool call (webhook.py lines 549-609).  `cfg` is the
    config dict, `number` the lead, `globalRedirect` the `REDIRECT_PHONE`
    environment fallback. -/
def execCall (cfg : List (String × Option String)) (number globalRedirect : String)
    (c : ToolCall) : List Effect :=
  let host := pyGet cfg "host"
  let token := pyGet cfg "token"
  if c.fname = "send_text" then
    let msg := (c.args.message).getD ""
    if msg ≠ "" then
      [.sendText host token number msg, .saveMsg "out" msg, .saveMem "assistant" msg]
    else []
  else if c.fname = "send_menu" then
    let q := (c.args.text).getD ""
    let choices := (c.args.choices).getD ["sim", "nao"]
    let footer := (c.args.footerText).getD "Escolha uma opção"
    if q ≠ "" then
      let menuText := renderMenu q choices footer
      [.sendText host token number menuText, .saveMsg "out" q,
       .saveMem "assistant" menuText]
    else []
  else if c.fname = "handoff" then
    let target := pyOrStr (pyGetD cfg "redirect_phone" (some "")) globalRedirect
    (if target = "" then []
     else [.sendText host token target (handoffMessage number)]) ++
    [.saveMsg "out" "[handoff]"]
  else []

/-- Execute a list of (already ordered) tool calls in sequence. -/
def execCalls (cfg : List (String × Option String)) (number globalRedirect : String)
    (calls : List ToolCall) : List Effect :=
  match calls with
  | [] => []
  | c :: rest => execCall cfg number globalRedirect c ++ execCalls cfg number globalRedirect rest

/-- Parsed LLM response: plain content and/or tool calls
    (webhook.py lines 388-392). -/
structure LlmResp where
  content : Option String
  toolCalls : List ToolCall
deriving DecidableEq, Repr

/-- The reply phase of `process_message` (webhook.py lines 511-627): a failed
    LLM call aborts; a response with tool calls executes them reordered
    (non-handoff first); otherwise non-empty trimmed content is an implicit
    `send_text`. -/
def llmPhase (cfg : List (String × Option String)) (resp : Option LlmResp)
    (number globalRedirect : String) : List Effect :=
  match resp with
  | none => []
  | some r =>
    if r.toolCalls ≠ [] then
      execCalls cfg number globalRedirect (orderCalls r.toolCalls)
    else
      match r.content with
      | some s =>
        let msg := s.trim
        if msg ≠ "" then
          [.sendText (pyGet cfg "host") (pyGet cfg "token") number msg,
           .saveMsg "out" msg, .saveMem "assistant" msg]
        else []
      | none => []

/-- `process_message` (webhook.py lines 413-637).  `lockHeld` is the
    per-sender `processing_lock` state; `row` the `instances` row;
    `emailOf` the users-table email lookup; `billingActive` the billing
    oracle; `resp` the LLM response oracle.  Returns the effect trace;
    every abort path returns normally (exceptions are swallowed). -/
def processMessage (lockHeld : Bool) (row : Option InstanceRow)
    (emailOf : String → Option String) (billingActive : String → Bool)
    (resp : Option LlmResp) (number text globalRedirect : String) : List Effect :=
  if lockHeld then []
  else
    match getInstanceConfig row with
    | none => []
    | some cfg =>
      let adminStatus := pyGetD cfg "admin_status" (some "")
      if adminStatus ≠ some "configured" ∧ adminStatus ≠ some "active" then []
      else if pyGet cfg "status" ≠ some "connected" then []
      else
        let memUser : List Effect := [.saveMem "user" text]
        let userEmail := (pyGet cfg "user_id").bind emailOf
        match userEmail with
        | some em =>
          if billingActive em then
            memUser ++ llmPhase cfg resp number globalRedirect
          else memUser
        | none => memUser ++ llmPhase cfg resp number globalRedirect

/-- `get_history` (webhook.py lines 191-250): the ai_memory rows of the
    instance ordered newest-first, limited to `maxHistory`, then reversed back
    to chronological order.  `mem` is the chronological ai_memory log as
    `(role, content)` pairs. -/
def getHistory (mem : List (String × String)) (maxHistory : Nat) :
    List (String × String) :=
  (mem.reverse.take maxHistory).reverse

/-! ## Webhook ingestion tail (webhook.py, `whatsapp_webhook` lines 708-790)

After owner→instance resolution, the handler applies its guards, durably
stores the raw fragment (`save_message`) and only then buffers it. -/

inductive WebhookEffect
  | save
  | buffer
deriving DecidableEq, Repr

inductive WebhookOutcome
  | ignoredNoInstance
  | ignoredNoNumber
  | ignoredFromMe
  | ignoredNoText
  | buffered
deriving DecidableEq, Repr

/-- Guard order and effect order of the webhook tail: every path returns an
    HTTP-200 outcome; a fragment is buffered only after being stored. -/
def webhookTail (instId : Option String) (number : String) (fromMe : Bool)
    (text : String) : List WebhookEffect × WebhookOutcome :=
  match instId with
  | none => ([], .ignoredNoInstance)
  | some _ =>
    if number = "" then ([], .ignoredNoNumber)
    else if fromMe then ([], .ignoredFromMe)
    else if text = "" then ([], .ignoredNoText)
    else ([.save, .buffer], .buffered)

/-! ## Debounce buffer (webhook.py, `whatsapp_webhook` lines 738-790)

`pending_messages` maps the key `f"{instance_id}:{number}"` to an entry with
the fragment texts and a cancellable 7-second timer.  A new fragment for an
existing key appends its text, cancels the old timer and schedules a new one;
an expired timer pops the entry and hands the space-joined text to
`process_message`.  We model time as natural-number seconds and run a
discrete-event simulation: before each arriving fragment, timers whose
deadline has passed fire; after the last fragment, all remaining timers
fire. -/

def BUFFER_SECONDS : Nat := 7

structure Frag where
  t : Nat
  key : String
  text : String
deriving DecidableEq, Repr

structure BufEntry where
  key : String
  texts : List String
  deadline : Nat
deriving DecidableEq, Repr

structure Flush where
  key : String
  texts : List String
deriving DecidableEq, Repr

/-- The combined text a flush hands to `process_message`:
    `" ".join(entry["texts"])` (webhook.py line 758). -/
def flushMessage (f : Flush) : String :=
  String.intercalate " " f.texts

/-- Fire every timer whose deadline is at or before `t`; keep the rest. -/
def expireDue (t : Nat) (st : List BufEntry) : List Flush × List BufEntry :=
  (st.filter (fun e => e.deadline ≤ t) |>.map (fun e => ⟨e.key, e.texts⟩),
   st.filter (fun e => ¬ e.deadline ≤ t))

/-- Ingest one fragment: append to the key's live entry (resetting its
    deadline to `t + BUFFER_SECONDS`, i.e. cancel-and-reschedule), or create
    a fresh entry. -/
def ingestFrag (f : Frag) (st : List BufEntry) : List BufEntry :=
  if st.any (fun e => e.key = f.key) then
    st.map (fun e =>
      if e.key = f.key then ⟨e.key, e.texts ++ [f.text], f.t + BUFFER_SECONDS⟩
      else e)
  else st ++ [⟨f.key, [f.text], f.t + BUFFER_SECONDS⟩]

/-- Discrete-event run: fragments arrive in time order; due timers fire before
    each arrival; at the end every surviving entry flushes. -/
def simulateBuffer (st : List BufEntry) : List Frag → List Flush
  | [] => st.map (fun e => ⟨e.key, e.texts⟩)
  | f :: fs =>
    let p := expireDue f.t st
    p.1 ++ simulateBuffer (ingestFrag f p.2) fs

/-- A whole run starting from an empty buffer table. -/
def debounceRun (frags : List Frag) : List Flush :=
  simulateBuffer [] frags

/-- Arrival-order discipline of a fragment burst: times are non-decreasing and
    each consecutive gap is strictly below the quiet period. -/
def gapsOk : List Frag → Prop
  | [] => True
  | [_] => True
  | a :: b :: rest => a.t ≤ b.t ∧ b.t < a.t + BUFFER_SECONDS ∧ gapsOk (b :: rest)

/-- Burst chain condition relative to the previous fragment's time. -/
def chainFrom (lastT : Nat) : List Frag → Prop
  | [] => True
  | f :: fs => lastT ≤ f.t ∧ f.t < lastT + BUFFER_SECONDS ∧ chainFrom f.t fs

/-! ## Outreach queue and totals (loop.py) -/

/-- `_normalize_phone` (loop.py lines 104-106): keep only digits. -/
def normalizePhone (s : String) : String :=
  String.mk (s.toList.filter Char.isDigit)

/-- A row of `instance_loop_queue`.  `created_at` FIFO order is the list
    order; `status` defaults to `"pending"` on insert. -/
structure QueueRow where
  inst : String
  id : Nat
  name : Option String
  phone : String
  niche : Option String
  source : String
  status : String
deriving DecidableEq, Repr

/-- A row of `instance_loop_totals`; `today` models
    `updated_at::date = CURRENT_DATE`. -/
structure TotalRow where
  inst : String
  name : Option String
  phone : String
  niche : Option String
  sent : Bool
  status : String
  today : Bool
deriving DecidableEq, Repr

/-- Number of totals rows for one `(instance_id, phone)` key. -/
def countTotals (totals : List TotalRow) (inst phone : String) : Nat :=
  (totals.filter (fun r => r.inst == inst && r.phone == phone)).length

/-- `INSERT ... ON CONFLICT (instance_id, phone) DO UPDATE`
    (loop.py lines 515-528): update the matching row's name, niche, sent flag,
    status and timestamp, or append a fresh row. -/
def upsertTotal (inst : String) (name : Option String) (phone : String)
    (niche : Option String) (sent : Bool) (status : String)
    (totals : List TotalRow) : List TotalRow :=
  if totals.any (fun r => r.inst == inst && r.phone == phone) then
    totals.map (fun r =>
      if r.inst == inst && r.phone == phone then
        { r with name := name, niche := niche, sent := sent,
                 status := status, today := true }
      else r)
  else totals ++ [⟨inst, name, phone, niche, sent, status, true⟩]

/-- `LoopManager._mark_contact_sent` (loop.py lines 502-528): delete the queue
    row by id, then upsert the totals row. -/
def markContactSent (inst : String) (queueId : Nat) (name : Option String)
    (phone : String) (niche : Option String) (sent : Bool) (status : String)
    (queue : List QueueRow) (totals : List TotalRow) :
    List QueueRow × List TotalRow :=
  (queue.filter (fun r => r.id ≠ queueId),
   upsertTotal inst name phone niche sent status totals)

/-- Result of `add_contact` (loop.py lines 109-143).  The two HTTPException
    400 paths are explicit constructors. -/
inductive AddResult
  | ok (id : Nat)
  | skippedAlreadySent
  | skippedDuplicateInQueue
  | errPhoneRequired
  | errPhoneInvalid
deriving DecidableEq, Repr

/-- `add_contact`: validate the phone, skip if the totals row for the
    normalized phone is already marked sent, otherwise insert a pending queue
    row (`freshId` models the serial primary key, so the `ON CONFLICT (id)`
    clause never fires). -/
def addContact (inst : String) (name : Option String) (phone : String)
    (niche : Option String) (source : String) (totals : List TotalRow)
    (queue : List QueueRow) (freshId : Nat) : AddResult × List QueueRow :=
  if phone = "" then (.errPhoneRequired, queue)
  else
    let np := normalizePhone phone
    if np = "" then (.errPhoneInvalid, queue)
    else
      match totals.find? (fun r => r.inst == inst && r.phone == np) with
      | some r =>
        if r.sent then (.skippedAlreadySent, queue)
        else (.ok freshId, queue ++ [⟨inst, freshId, name, np, niche, source, "pending"⟩])
      | none => (.ok freshId, queue ++ [⟨inst, freshId, name, np, niche, source, "pending"⟩])

/-- `import_contacts_from_csv` body (loop.py lines 167-181): one `add_contact`
    per parsed data row (source `"csv"`), counting inserted/skipped/errors;
    exceptions from `add_contact` are caught and counted as errors. -/
def importRows (inst : String) (rows : List (Option String × String × Option String))
    (totals : List TotalRow) (queue : List QueueRow) (freshId : Nat) :
    (Nat × Nat × Nat) × List QueueRow :=
  match rows with
  | [] => ((0, 0, 0), queue)
  | (name, phone, niche) :: rest =>
    let step := addContact inst name phone niche "csv" totals queue freshId
    let next := importRows inst rest totals step.2 (freshId + 1)
    match step.1 with
    | .ok _ => ((next.1.1 + 1, next.1.2.1, next.1.2.2), next.2)
    | .skippedAlreadySent => ((next.1.1, next.1.2.1 + 1, next.1.2.2), next.2)
    | .skippedDuplicateInQueue => ((next.1.1, next.1.2.1 + 1, next.1.2.2), next.2)
    | _ => ((next.1.1, next.1.2.1, next.1.2.2 + 1), next.2)

/-! ## Template rendering -/

/-- Python `x or default` on a nullable count: `None` and `0` are falsy
    (`int(settings.get("daily_limit") or DEFAULT_DAILY_LIMIT)`). -/
def pyOrNat (o : Option Nat) (d : Nat) : Nat :=
  match o with
  | some n => if n = 0 then d else n
  | none => d

/-- `LoopManager._run_loop` template rendering (loop.py lines 443-444):
    default template when unset, then `str.replace` of `"{name}"` and
    `"{{name}}"` with `name or ""`. -/
def renderLoopMessage (template : Option String) (name : Option String) : String :=
  let t := match template with
    | some s => if s = "" then "Olá {name}, tudo bem?" else s
    | none => "Olá {name}, tudo bem?"
  let n := name.getD ""
  pyReplace (pyReplace t "{name}" n) "{{name}}" n

/-- Greeting chosen from the Brasília hour (admin.py lines 2044-2050). -/
def saudacaoFor (hour : Nat) : String :=
  if 5 ≤ hour ∧ hour < 12 then "Bom dia"
  else if 12 ≤ hour ∧ hour < 18 then "Boa tarde"
  else "Boa noite"

/-- Legacy admin automation loop rendering (admin.py line 2053): chained
    `str.replace` of `{nome}`, `{phone}`, `{niche}`, `{saudacao}`. -/
def renderAdminMessage (template name phone niche saudacao : String) : String :=
  pyReplace (pyReplace (pyReplace (pyReplace template "{nome}" name)
    "{phone}" phone) "{niche}" niche) "{saudacao}" saudacao

/-! ## LoopManager task registry (loop.py lines 376-403, 466-471)

`_tasks` and `_stop_flags` are dicts; `dset` models `d[k] = v` (at most one
entry per key), `dpop` models `d.pop(k, None)`.  A task is `running` until it
finishes; `start_loop`/`stop_loop`/the `finally` cleanup mutate the registry
under `self._lock`, so they are modelled as atomic steps. -/

inductive TaskStatus
  | running
  | done
deriving DecidableEq, Repr

def dset {α : Type} (d : List (String × α)) (k : String) (v : α) :
    List (String × α) :=
  (k, v) :: d.filter (fun p => p.1 ≠ k)

def dpop {α : Type} (d : List (String × α)) (k : String) : List (String × α) :=
  d.filter (fun p => p.1 ≠ k)

structure MgrState where
  tasks : List (String × TaskStatus)
  stopFlags : List (String × Bool)
deriving DecidableEq, Repr

/-- `LoopManager.is_running` (loop.py lines 383-385): a task exists and is not
    done. -/
def isRunningMgr (s : MgrState) (inst : String) : Bool :=
  match s.tasks.lookup inst with
  | some .running => true
  | _ => false

/-- `LoopManager.start_loop` (loop.py lines 387-395): under the lock, 409 if
    already running, else register a fresh stop flag and a running task. -/
def startLoop (s : MgrState) (inst : String) : Except Nat MgrState :=
  if isRunningMgr s inst then .error 409
  else .ok { tasks := dset s.tasks inst .running,
             stopFlags := dset s.stopFlags inst false }

/-- `LoopManager.stop_loop` (loop.py lines 397-403): 404 if no stop flag is
    registered, else set it. -/
def stopLoop (s : MgrState) (inst : String) : Except Nat MgrState :=
  match s.stopFlags.lookup inst with
  | none => .error 404
  | some _ => .ok { s with stopFlags := dset s.stopFlags inst true }

/-- The `finally` cleanup of `_run_loop` (loop.py lines 466-471): pop the task
    handle and the stop flag. -/
def cleanupRun (s : MgrState) (inst : String) : MgrState :=
  { tasks := dpop s.tasks inst, stopFlags := dpop s.stopFlags inst }

/-! ## Automation run (loop.py, `LoopManager._run_loop` lines 405-471) -/

/-- `_compute_daily_sent` row count (loop.py lines 329-345): totals rows of
    the instance with `mensagem_enviada = TRUE` updated today. -/
def computeDailySent (inst : String) (totals : List TotalRow) : Nat :=
  (totals.filter (fun r => r.inst == inst && r.sent && r.today)).length

/-- `_next_contact` (loop.py lines 484-500): oldest pending queue row of the
    instance. -/
def nextContact (inst : String) (queue : List QueueRow) : Option QueueRow :=
  queue.find? (fun r => r.inst == inst && r.status == "pending")

inductive LoopEvent
  | start
  | endEv (reason : String) (processed : Nat)
  | pause (reason : String)
  | item (status : String) (phone : String)
  | errorEv
deriving DecidableEq, Repr

/-- Static inputs of one `_run_loop` run. -/
structure LoopEnv where
  inst : String
  dailyLimit : Option Nat
  template : Option String
  creds : Option (String × String)
deriving Repr

/-- The while-loop of `_run_loop` (lines 424-457), driven by per-iteration
    oracles for the cooperative stop flag, the sending window and the gateway
    send outcome; `fuel` bounds the iteration count (the real loop can spin in
    the pause branch).  Returns the events emitted inside the loop, the final
    queue and totals, the processed counter, and the stop-flag value observed
    after exiting (used for the final `end` event). -/
def runIters (env : LoopEnv) (stopFlag window sendOk : Nat → Bool) :
    Nat → Nat → Nat → Nat → Nat → List QueueRow → List TotalRow →
    List LoopEvent × List QueueRow × List TotalRow × Nat × Bool
  | 0, it, processed, _, _, queue, totals =>
    ([], queue, totals, processed, stopFlag it)
  | fuel + 1, it, processed, sentToday, cap, queue, totals =>
    if stopFlag it then ([], queue, totals, processed, true)
    else if ¬ window it then
      let r := runIters env stopFlag window sendOk fuel (it + 1) processed
        sentToday cap queue totals
      (.pause "outside_window" :: r.1, r.2)
    else
      match nextContact env.inst queue with
      | none => ([], queue, totals, processed, stopFlag it)
      | some c =>
        if sentToday ≥ cap then
          ([.endEv "daily_quota" processed], queue, totals, processed, stopFlag it)
        else if sendOk it then
          let qt := markContactSent env.inst c.id c.name c.phone c.niche true
            "sent" queue totals
          let r := runIters env stopFlag window sendOk fuel (it + 1)
            (processed + 1) (sentToday + 1) cap qt.1 qt.2
          (.item "sent" c.phone :: r.1, r.2)
        else
          let qt := markContactSent env.inst c.id c.name c.phone c.niche false
            "error" queue totals
          let r := runIters env stopFlag window sendOk fuel (it + 1) processed
            sentToday cap qt.1 qt.2
          (.item "error" c.phone :: r.1, r.2)

/-- One `_run_loop` run (loop.py lines 405-465, events only; the `finally`
    registry cleanup is `cleanupRun`).  The pre-loop daily-quota check returns
    immediately with an `end`/`daily_quota` event and processed 0; missing
    credentials raise and surface as an `error` event. -/
def runLoop (env : LoopEnv) (stopFlag window sendOk : Nat → Bool)
    (queue : List QueueRow) (totals : List TotalRow) (fuel : Nat) :
    List LoopEvent × List QueueRow × List TotalRow :=
  let cap := pyOrNat env.dailyLimit 30
  let sentToday := computeDailySent env.inst totals
  if sentToday ≥ cap then
    ([.start, .endEv "daily_quota" 0], queue, totals)
  else
    match env.creds with
    | none => ([.start, .errorEv], queue, totals)
    | some _ =>
      let r := runIters env stopFlag window sendOk fuel 0 0 sentToday cap queue totals
      let fin : LoopEvent :=
        if r.2.2.2.2 then .endEv "manual_stop" r.2.2.2.1
        else .endEv "completed" r.2.2.2.1
      (.start :: (r.1 ++ [fin]), r.2.1, r.2.2.1)

/-! ## Helper lemmas -/

theorem splitCalls_fst (calls : List ToolCall) :
    (splitCalls calls).1 = calls.filter isNonHandoffCall := by
  induction calls with
  | nil => rfl
  | cons c rest ih =>
    simp only [splitCalls, List.filter_cons]
    by_cases h1 : c.ctype = "function"
    · by_cases h2 : c.fname = "handoff"
      · simp [h1, h2, isNonHandoffCall, ih]
      · simp [h1, h2, isNonHandoffCall, ih]
    · simp [h1, isNonHandoffCall, ih]

theorem splitCalls_snd (calls : List ToolCall) :
    (splitCalls calls).2 = calls.filter isHandoffCall := by
  induction calls with
  | nil => rfl
  | cons c rest ih =>
    simp only [splitCalls, List.filter_cons]
    by_cases h1 : c.ctype = "function"
    · by_cases h2 : c.fname = "handoff"
      · simp [h1, h2, isHandoffCall, ih]
      · simp [h1, h2, isHandoffCall, ih]
    · simp [h1, isHandoffCall, ih]

theorem execCalls_append (cfg : List (String × Option String))
    (number gred : String) (a b : List ToolCall) :
    execCalls cfg number gred (a ++ b) =
      execCalls cfg number gred a ++ execCalls cfg number gred b := by
  induction a with
  | nil => rfl
  | cons c rest ih => simp [execCalls, ih]

/-! ## C2: tool-call ordering -/

/-- C2.  For every LLM response with tool calls, `process_message` executes
    all non-handoff function calls first, in their original relative order,
    and all handoff calls after them, in their original relative order: the
    reordered list is exactly `filter non-handoff ++ filter handoff`, and the
    executed effect trace decomposes accordingly. -/
theorem toolCall_ordering (calls : List ToolCall)
    (cfg : List (String × Option String)) (number gred : String) :
    orderCalls calls =
      calls.filter isNonHandoffCall ++ calls.filter isHandoffCall ∧
    execCalls cfg number gred (orderCalls calls) =
      execCalls cfg number gred (calls.filter isNonHandoffCall) ++
        execCalls cfg number gred (calls.filter isHandoffCall) := by
  constructor
  · rw [orderCalls, splitCalls_fst, splitCalls_snd]
  · rw [orderCalls, splitCalls_fst, splitCalls_snd, execCalls_append]

/-! ## C1: debounce coalescing and independence -/

theorem gapsOk_cons (f : Frag) (fs : List Frag) :
    gapsOk (f :: fs) ↔ chainFrom f.t fs := by
  induction fs generalizing f with
  | nil => simp [gapsOk, chainFrom]
  | cons g gs ih => simp [gapsOk, chainFrom, ← ih g]

theorem simulateBuffer_burst (k : String) :
    ∀ (frags : List Frag) (acc : List String) (lastT : Nat),
      (∀ f ∈ frags, f.key = k) → chainFrom lastT frags →
      simulateBuffer [⟨k, acc, lastT + BUFFER_SECONDS⟩] frags =
        [⟨k, acc ++ frags.map Frag.text⟩] := by
  intro frags
  induction frags with
  | nil => intro acc lastT _ _; simp [simulateBuffer]
  | cons f fs ih =>
    intro acc lastT hk hchain
    obtain ⟨hle, hlt, hchain'⟩ := hchain
    have hkey : f.key = k := hk f (List.mem_cons_self f fs)
    have hnot : ¬ (lastT + BUFFER_SECONDS ≤ f.t) := by omega
    simp only [simulateBuffer, expireDue, List.filter_cons, List.filter_nil]
    rw [if_neg (by simpa using hnot), if_pos (by simpa using hnot)]
    simp only [List.map_nil, List.nil_append]
    have hing : ingestFrag f [⟨k, acc, lastT + BUFFER_SECONDS⟩] =
        [⟨k, acc ++ [f.text], f.t + BUFFER_SECONDS⟩] := by
      simp [ingestFrag, hkey]
    rw [hing, ih (acc ++ [f.text]) f.t (fun g hg => hk g (List.mem_cons_of_mem f hg)) hchain']
    simp

theorem ingestFrag_origin (f : Frag) (st : List BufEntry) (e : BufEntry)
    (he : e ∈ ingestFrag f st) (s : String) (hs : s ∈ e.texts) :
    (∃ e' ∈ st, e'.key = e.key ∧ s ∈ e'.texts) ∨ (e.key = f.key ∧ s = f.text) := by
  unfold ingestFrag at he
  by_cases hany : st.any (fun e => e.key = f.key)
  · rw [if_pos hany] at he
    obtain ⟨e', he', heq⟩ := List.mem_map.mp he
    by_cases hk : e'.key = f.key
    · rw [if_pos hk] at heq
      subst heq
      simp only [List.mem_append, List.mem_singleton] at hs
      rcases hs with hs | hs
      · exact Or.inl ⟨e', he', rfl, hs⟩
      · exact Or.inr ⟨hk, hs⟩
    · rw [if_neg hk] at heq
      subst heq
      exact Or.inl ⟨e', he', rfl, hs⟩
  · rw [if_neg hany] at he
    rcases List.mem_append.mp he with he | he
    · exact Or.inl ⟨e, he, rfl, hs⟩
    · simp only [List.mem_singleton] at he
      subst he
      simp only [List.mem_singleton] at hs
      exact Or.inr ⟨rfl, hs⟩

theorem simulateBuffer_origin :
    ∀ (frags : List Frag) (st : List BufEntry) (fl : Flush),
      fl ∈ simulateBuffer st frags → ∀ s ∈ fl.texts,
      (∃ e ∈ st, e.key = fl.key ∧ s ∈ e.texts) ∨
      (∃ fr ∈ frags, fr.key = fl.key ∧ fr.text = s) := by
  intro frags
  induction frags with
  | nil =>
    intro st fl hfl s hs
    simp only [simulateBuffer] at hfl
    obtain ⟨e, he, heq⟩ := List.mem_map.mp hfl
    subst heq
    exact Or.inl ⟨e, he, rfl, hs⟩
  | cons f fs ih =>
    intro st fl hfl s hs
    simp only [simulateBuffer, List.mem_append] at hfl
    rcases hfl with hfl | hfl
    · obtain ⟨e, he, heq⟩ := List.mem_map.mp hfl
      subst heq
      exact Or.inl ⟨e, List.mem_of_mem_filter he, rfl, hs⟩
    · rcases ih _ fl hfl s hs with ⟨e, he, hkey, hse⟩ | ⟨fr, hfr, hkey, hst⟩
      · rcases ingestFrag_origin f _ e he s hse with ⟨e', he', hkey', hse'⟩ | ⟨hkey', hst⟩
        · exact Or.inl ⟨e', List.mem_of_mem_filter he', hkey'.trans hkey, hse'⟩
        · exact Or.inr ⟨f, List.mem_cons_self f fs, hkey'.symm ▸ hkey ▸ rfl, hst.symm⟩
      · exact Or.inr ⟨fr, List.mem_cons_of_mem f hfr, hkey, hst⟩

/-- C1.  (i) A burst of N ≥ 1 fragments for one key with consecutive gaps
    strictly below the 7-second quiet period produces exactly one flush,
    carrying all N fragments in arrival order, handed on space-joined.
    (ii) Every flush of any run contains only fragments that were ingested
    under that flush's own key, so two keys never coalesce. -/
theorem debounce_coalescing_and_independence :
    (∀ (k : String) (frags : List Frag), frags ≠ [] →
      (∀ f ∈ frags, f.key = k) → gapsOk frags →
      debounceRun frags = [⟨k, frags.map Frag.text⟩] ∧
      (debounceRun frags).map flushMessage =
        [String.intercalate " " (frags.map Frag.text)]) ∧
    (∀ (frags : List Frag), ∀ fl ∈ debounceRun frags, ∀ s ∈ fl.texts,
      ∃ fr ∈ frags, fr.key = fl.key ∧ fr.text = s) := by
  constructor
  · intro k frags hne hk hgaps
    match frags, hne with
    | f :: fs, _ =>
      have hkey : f.key = k := hk f (List.mem_cons_self f fs)
      have hchain : chainFrom f.t fs := (gapsOk_cons f fs).mp hgaps
      have hrun : debounceRun (f :: fs) = [⟨k, f.text :: fs.map Frag.text⟩] := by
        simp only [debounceRun, simulateBuffer, expireDue, List.filter_nil,
          List.map_nil, List.nil_append]
        have hing : ingestFrag f [] = [⟨k, [f.text], f.t + BUFFER_SECONDS⟩] := by
          simp [ingestFrag, hkey]
        rw [hing, simulateBuffer_burst k fs [f.text] f.t
          (fun g hg => hk g (List.mem_cons_of_mem f hg)) hchain]
        simp
      refine ⟨by simpa using hrun, ?_⟩
      rw [hrun]
      simp [flushMessage]
  · intro frags fl hfl s hs
    rcases simulateBuffer_origin frags [] fl hfl s hs with ⟨e, he, _⟩ | h
    · simp at he
    · exact h

/-- Witness for C1 (end-to-end scenario 1 of the spec): fragments `"oi"` and
    `"vc tem produto X?"` 2 seconds apart coalesce into a single flush whose
    combined text is `"oi vc tem produto X?"`. -/
theorem debounce_coalescing_witness :
    debounceRun [⟨0, "inst1:5531999", "oi"⟩, ⟨2, "inst1:5531999", "vc tem produto X?"⟩] =
      [⟨"inst1:5531999", ["oi", "vc tem produto X?"]⟩] ∧
    (debounceRun [⟨0, "inst1:5531999", "oi"⟩,
        ⟨2, "inst1:5531999", "vc tem produto X?"⟩]).map flushMessage =
      ["oi vc tem produto X?"] :=
  debounce_coalescing_and_independence.1 "inst1:5531999"
    [⟨0, "inst1:5531999", "oi"⟩, ⟨2, "inst1:5531999", "vc tem produto X?"⟩]
    (by simp) (by simp) (by simp [gapsOk, BUFFER_SECONDS])

/-! ## C3: gating correctness -/

/-- C3.  (i) If the instance row is missing, its prompt is unset/empty, its
    admin status is outside {configured, active}, or its connection status is
    not `connected` — in any combination — `process_message` produces no
    effect at all: in particular no gateway send is attempted and no error is
    surfaced (the function returns normally with an empty trace).
    (ii) The webhook stores every fragment it buffers: whenever the webhook
    tail reaches the buffered outcome, its effect trace is exactly
    [store, buffer], storage first; every other path emits nothing and still
    acknowledges. -/
theorem gating_correctness :
    (∀ (lockHeld : Bool) (row : Option InstanceRow)
        (emailOf : String → Option String) (billingActive : String → Bool)
        (resp : Option LlmResp) (number text gred : String),
      (row = none ∨
        ∃ r, row = some r ∧
          (truthyStr r.prompt = false ∨
           (r.adminStatus ≠ some "configured" ∧ r.adminStatus ≠ some "active") ∨
           r.status ≠ some "connected")) →
      processMessage lockHeld row emailOf billingActive resp number text gred = []) ∧
    (∀ (instId : Option String) (number : String) (fromMe : Bool) (text : String),
      (webhookTail instId number fromMe text).2 = .buffered →
      (webhookTail instId number fromMe text).1 = [.save, .buffer]) := by
  constructor
  · intro lockHeld row emailOf billingActive resp number text gred hbad
    cases lockHeld with
    | true => simp [processMessage]
    | false =>
      rcases hbad with rfl | ⟨r, rfl, hbad⟩
      · simp [processMessage, getInstanceConfig]
      · by_cases hp : truthyStr r.prompt
        · rcases hbad with hbad | hbad | hbad
          · exact absurd hp (by simp [hbad])
          · simp [processMessage, getInstanceConfig, hp, pyGetD, pyGet,
              List.lookup, hbad.1, hbad.2]
          · by_cases hadmin : r.adminStatus ≠ some "configured" ∧
                r.adminStatus ≠ some "active"
            · simp [processMessage, getInstanceConfig, hp, pyGetD, pyGet,
                List.lookup, hadmin.1, hadmin.2]
            · simp only [processMessage, getInstanceConfig, hp, if_true,
                pyGetD, pyGet, List.lookup]
              simp only [Bool.false_eq_true, if_false]
              rw [if_neg (by simpa using hadmin)]
              simp [hbad]
        · simp [processMessage, getInstanceConfig, hp]
  · intro instId number fromMe text h
    match instId with
    | none => simp [webhookTail] at h
    | some i =>
      by_cases h1 : number = ""
      · simp [webhookTail, h1] at h
      · by_cases h2 : fromMe
        · simp [webhookTail, h1, h2] at h
        · by_cases h3 : text = ""
          · simp [webhookTail, h1, h2, h3] at h
          · simp [webhookTail, h1, h2, h3]

/-- Witness for C3: a connected instance whose admin status is still
    `pending_config` yields an empty effect trace, and an accepted webhook
    fragment is stored before it is buffered. -/
theorem gating_correctness_witness :
    processMessage false
        (some ⟨"inst1", some "host", some "tk", some "Prompt", some "connected",
               none, some "pending_config"⟩)
        (fun _ => none) (fun _ => true)
        (some ⟨some "hello", []⟩) "5531999" "oi" "" = [] ∧
    (webhookTail (some "inst1") "5531999" false "oi").1 = [.save, .buffer] :=
  ⟨gating_correctness.1 false _ _ _ _ _ _ _
      (Or.inr ⟨_, rfl, Or.inr (Or.inl (by simp))⟩),
   gating_correctness.2 (some "inst1") "5531999" false "oi" (by simp [webhookTail])⟩

/-! ## C10: the billing gate is unreachable -/

/-- C10.  `get_instance_config` builds a dict with exactly the keys id, host,
    token, prompt, status, redirect_phone, admin_status — never `user_id` —
    so `config.get("user_id")` is always `None`, the user-email lookup and
    `is_billing_active` check are skipped, and the outcome of
    `process_message` is independent of the billing and email oracles: the
    pipeline never suppresses a reply because of inactive billing. -/
theorem billing_gate_unreachable :
    (∀ (row : Option InstanceRow) (cfg : List (String × Option String)),
      getInstanceConfig row = some cfg → pyGet cfg "user_id" = none) ∧
    (∀ (lockHeld : Bool) (row : Option InstanceRow)
        (emailOf₁ emailOf₂ : String → Option String)
        (billing₁ billing₂ : String → Bool)
        (resp : Option LlmResp) (number text gred : String),
      processMessage lockHeld row emailOf₁ billing₁ resp number text gred =
        processMessage lockHeld row emailOf₂ billing₂ resp number text gred) := by
  have hkey : ∀ (row : Option InstanceRow) (cfg : List (String × Option String)),
      getInstanceConfig row = some cfg → pyGet cfg "user_id" = none := by
    intro row cfg hcfg
    match row with
    | none => simp [getInstanceConfig] at hcfg
    | some r =>
      by_cases hp : truthyStr r.prompt
      · simp only [getInstanceConfig, hp, if_true, Option.some.injEq] at hcfg
        subst hcfg
        rfl
      · simp [getInstanceConfig, hp] at hcfg
  refine ⟨hkey, ?_⟩
  intro lockHeld row emailOf₁ emailOf₂ billing₁ billing₂ resp number text gred
  cases lockHeld with
  | true => rfl
  | false =>
    simp only [processMessage]
    match hcfg : getInstanceConfig row with
    | none => rfl
    | some cfg =>
      have huser : pyGet cfg "user_id" = none := hkey row cfg hcfg
      simp [huser]

/-- Witness for C10: on a fully configured row the config dict has no
    `user_id` entry, and swapping the billing oracle from always-active to
    always-inactive leaves the pipeline's effects unchanged. -/
theorem billing_gate_unreachable_witness :
    pyGet [("id", some "inst1"), ("host", some "h"), ("token", some "tk"),
           ("prompt", some "P"), ("status", some "connected"),
           ("redirect_phone", none), ("admin_status", some "active")]
        "user_id" = none ∧
    processMessage false
        (some ⟨"inst1", some "h", some "tk", some "P", some "connected", none,
               some "active"⟩)
        (fun _ => some "user@x.com") (fun _ => true)
        (some ⟨some "resposta", []⟩) "5531999" "oi" "" =
      processMessage false
        (some ⟨"inst1", some "h", some "tk", some "P", some "connected", none,
               some "active"⟩)
        (fun _ => some "user@x.com") (fun _ => false)
        (some ⟨some "resposta", []⟩) "5531999" "oi" "" :=
  ⟨billing_gate_unreachable.1
      (some ⟨"inst1", some "h", some "tk", some "P", some "connected", none,
             some "active"⟩) _ rfl,
   billing_gate_unreachable.2 false _ _ _ _ _ _ _ _ _⟩

/-! ## C4: at-most-one-running invariant -/

theorem dpop_lookup {α : Type} (d : List (String × α)) (k : String) :
    (dpop d k).lookup k = none := by
  induction d with
  | nil => rfl
  | cons p rest ih =>
    by_cases h : p.1 = k
    · simpa [dpop, h] using ih
    · have hne : (k == p.1) = false := by
        simp only [beq_eq_false_iff_ne, ne_eq]
        exact fun e => h e.symm
      simp only [dpop, List.filter_cons]
      rw [if_pos (by simpa using h)]
      simpa [List.lookup, hne, dpop] using ih

theorem filter_dpop_eq_nil {α : Type} (d : List (String × α)) (k : String) :
    (d.filter (fun p => p.1 ≠ k)).filter (fun p => p.1 = k) = [] := by
  induction d with
  | nil => rfl
  | cons p rest ih =>
    by_cases h : p.1 = k
    · simp [List.filter_cons, h, ih]
    · simp only [List.filter_cons]
      rw [if_pos (by simpa using h)]
      simp only [List.filter_cons]
      rw [if_neg (by simpa using h)]
      exact ih

theorem dset_filter_eq {α : Type} (d : List (String × α)) (k : String) (v : α) :
    (dset d k v).filter (fun p => p.1 = k) = [(k, v)] := by
  simp [dset, List.filter_cons, filter_dpop_eq_nil]

theorem dset_lookup {α : Type} (d : List (String × α)) (k : String) (v : α) :
    (dset d k v).lookup k = some v := by
  simp [dset, List.lookup]

/-- C4.  (i) `start_loop` on an instance with a live (non-done) task always
    fails with 409.  (ii) A successful `start_loop` can only happen when no
    live task exists, and it registers exactly one task entry for the
    instance, now live.  (iii) After the `finally` cleanup of a prior run,
    `start_loop` always succeeds.  (iv) `stop_loop` with no registered stop
    flag always fails with 404. -/
theorem at_most_one_running :
    (∀ (s : MgrState) (inst : String),
      isRunningMgr s inst = true → startLoop s inst = .error 409) ∧
    (∀ (s : MgrState) (inst : String) (s' : MgrState),
      startLoop s inst = .ok s' →
      isRunningMgr s inst = false ∧
      (s'.tasks.filter (fun p => p.1 = inst)).length = 1 ∧
      isRunningMgr s' inst = true) ∧
    (∀ (s : MgrState) (inst : String),
      ∃ s', startLoop (cleanupRun s inst) inst = .ok s') ∧
    (∀ (s : MgrState) (inst : String),
      s.stopFlags.lookup inst = none → stopLoop s inst = .error 404) := by
  refine ⟨?_, ?_, ?_, ?_⟩
  · intro s inst h
    simp [startLoop, h]
  · intro s inst s' h
    by_cases hrun : isRunningMgr s inst
    · simp [startLoop, hrun] at h
    · simp only [startLoop, hrun, Bool.false_eq_true, if_false,
        Except.ok.injEq] at h
      subst h
      refine ⟨by simpa using hrun, ?_, ?_⟩
      · exact congrArg List.length (dset_filter_eq s.tasks inst .running)
      · simp [isRunningMgr, dset_lookup]
  · intro s inst
    have hrun : isRunningMgr (cleanupRun s inst) inst = false := by
      simp [isRunningMgr, cleanupRun, dpop_lookup]
    refine ⟨{ tasks := dset (cleanupRun s inst).tasks inst .running,
              stopFlags := dset (cleanupRun s inst).stopFlags inst false }, ?_⟩
    simp [startLoop, hrun]
  · intro s inst h
    simp [stopLoop, h]

/-- Witness for C4 (end-to-end scenario 3): with a live task for `"X"`,
    `start_loop("X")` raises 409; after cleanup a fresh start succeeds; on a
    state with no stop flag, `stop_loop` raises 404. -/
theorem at_most_one_running_witness :
    startLoop ⟨[("X", .running)], [("X", false)]⟩ "X" = .error 409 ∧
    (∃ s', startLoop (cleanupRun ⟨[("X", .running)], [("X", false)]⟩ "X") "X" = .ok s') ∧
    stopLoop ⟨[], []⟩ "X" = .error 404 :=
  ⟨at_most_one_running.1 ⟨[("X", .running)], [("X", false)]⟩ "X" rfl,
   at_most_one_running.2.2.1 ⟨[("X", .running)], [("X", false)]⟩ "X",
   at_most_one_running.2.2.2 ⟨[], []⟩ "X" rfl⟩

/-! ## C5: daily quota enforcement -/

/-- C5.  With `daily_limit = K > 0` and at least K successful sends already
    recorded today (totals rows with `mensagem_enviada` true updated today),
    a run of `_run_loop` leaves the queue and totals untouched — zero
    contacts processed — and terminates emitting exactly
    `start` followed by `end` with reason `daily_quota` and processed 0. -/
theorem daily_quota_enforcement (env : LoopEnv) (K : Nat)
    (stopFlag window sendOk : Nat → Bool) (queue : List QueueRow)
    (totals : List TotalRow) (fuel : Nat)
    (hK : env.dailyLimit = some K) (hpos : 0 < K)
    (hquota : K ≤ computeDailySent env.inst totals) :
    runLoop env stopFlag window sendOk queue totals fuel =
      ([.start, .endEv "daily_quota" 0], queue, totals) := by
  have hcap : pyOrNat env.dailyLimit 30 = K := by
    rw [hK]
    simp [pyOrNat, Nat.pos_iff_ne_zero.mp hpos]
  simp [runLoop, hcap, hquota]

/-- Witness for C5: `daily_limit = 1` and one sent-today totals row — the run
    stops immediately with reason `daily_quota`, leaving the pending contact
    in the queue. -/
theorem daily_quota_enforcement_witness :
    runLoop ⟨"inst1", some 1, none, some ("h", "tk")⟩
        (fun _ => false) (fun _ => true) (fun _ => true)
        [⟨"inst1", 1, some "Ana", "5531", none, "manual", "pending"⟩]
        [⟨"inst1", some "Bob", "5532", none, true, "sent", true⟩] 10 =
      ([.start, .endEv "daily_quota" 0],
       [⟨"inst1", 1, some "Ana", "5531", none, "manual", "pending"⟩],
       [⟨"inst1", some "Bob", "5532", none, true, "sent", true⟩]) :=
  daily_quota_enforcement ⟨"inst1", some 1, none, some ("h", "tk")⟩ 1
    (fun _ => false) (fun _ => true) (fun _ => true)
    [⟨"inst1", 1, some "Ana", "5531", none, "manual", "pending"⟩]
    [⟨"inst1", some "Bob", "5532", none, true, "sent", true⟩] 10
    rfl (by decide) (by simp [computeDailySent])

/-! ## C6: queue consumption invariant -/

theorem countTotals_map_update (totals : List TotalRow) (inst phone : String)
    (name niche : Option String) (sent : Bool) (status : String) :
    countTotals (totals.map (fun r =>
      if r.inst == inst && r.phone == phone then
        { r with name := name, niche := niche, sent := sent,
                 status := status, today := true }
      else r)) inst phone = countTotals totals inst phone := by
  unfold countTotals
  rw [← List.countP_eq_length_filter, ← List.countP_eq_length_filter,
    List.countP_map]
  congr 1
  funext r
  by_cases h : (r.inst == inst && r.phone == phone) = true
  · simp only [Function.comp_apply, if_pos h]
  · simp only [Function.comp_apply, if_neg h]

theorem countTotals_upsert (inst : String) (name : Option String) (phone : String)
    (niche : Option String) (sent : Bool) (status : String)
    (totals : List TotalRow)
    (hinv : countTotals totals inst phone ≤ 1) :
    countTotals (upsertTotal inst name phone niche sent status totals)
      inst phone = 1 := by
  unfold upsertTotal
  by_cases hany : totals.any (fun r => r.inst == inst && r.phone == phone)
  · rw [if_pos hany, countTotals_map_update]
    obtain ⟨r, hr, hp⟩ := List.any_eq_true.mp hany
    have hge : 1 ≤ countTotals totals inst phone := by
      unfold countTotals
      have : r ∈ totals.filter (fun r => r.inst == inst && r.phone == phone) :=
        List.mem_filter.mpr ⟨hr, hp⟩
      calc 1 ≤ 1 := le_refl 1
        _ ≤ _ := List.length_pos.mpr (fun hnil => by simp [hnil] at this)
    omega
  · rw [if_neg hany]
    unfold countTotals
    rw [List.filter_append]
    have hnil : totals.filter (fun r => r.inst == inst && r.phone == phone) = [] := by
      rw [List.filter_eq_nil_iff]
      intro r hr
      exact fun hp => hany (List.any_eq_true.mpr ⟨r, hr, hp⟩)
    rw [hnil]
    simp

theorem upsertTotal_matching (inst : String) (name : Option String)
    (phone : String) (niche : Option String) (sent : Bool) (status : String)
    (totals : List TotalRow) :
    ∀ r ∈ upsertTotal inst name phone niche sent status totals,
      r.inst = inst → r.phone = phone → r.sent = sent ∧ r.status = status := by
  unfold upsertTotal
  by_cases hany : totals.any (fun r => r.inst == inst && r.phone == phone)
  · rw [if_pos hany]
    intro r hr hi hp
    obtain ⟨r₀, _, heq⟩ := List.mem_map.mp hr
    by_cases h0 : (r₀.inst == inst && r₀.phone == phone) = true
    · rw [if_pos h0] at heq
      subst heq
      exact ⟨rfl, rfl⟩
    · rw [if_neg h0] at heq
      subst heq
      exact absurd (by simp [hi, hp]) h0
  · rw [if_neg hany]
    intro r hr hi hp
    rcases List.mem_append.mp hr with hr | hr
    · exact absurd (List.any_eq_true.mpr ⟨r, hr, by simp [hi, hp]⟩) hany
    · simp only [List.mem_singleton] at hr
      subst hr
      exact ⟨rfl, rfl⟩

/-- C6.  After `_mark_contact_sent` for a processed contact: (i) its queue
    row is gone; (ii) exactly one totals row exists for its
    (instance, phone) key (given the at-most-one invariant beforehand);
    (iii) that totals row carries the given success flag and status;
    (iv) running the same phone through a second time still leaves exactly
    one totals row — the upsert never duplicates. -/
theorem queue_consumption_invariant (inst : String) (qid : Nat)
    (name : Option String) (phone : String) (niche : Option String)
    (sent : Bool) (status : String) (queue : List QueueRow)
    (totals : List TotalRow)
    (hinv : countTotals totals inst phone ≤ 1) :
    (∀ r ∈ (markContactSent inst qid name phone niche sent status queue totals).1,
      r.id ≠ qid) ∧
    countTotals (markContactSent inst qid name phone niche sent status queue
      totals).2 inst phone = 1 ∧
    (∀ r ∈ (markContactSent inst qid name phone niche sent status queue totals).2,
      r.inst = inst → r.phone = phone → r.sent = sent ∧ r.status = status) ∧
    (∀ (qid₂ : Nat) (name₂ niche₂ : Option String) (sent₂ : Bool)
        (status₂ : String) (queue₂ : List QueueRow),
      countTotals (markContactSent inst qid₂ name₂ phone niche₂ sent₂ status₂
        queue₂ (markContactSent inst qid name phone niche sent status queue
          totals).2).2 inst phone = 1) := by
  refine ⟨?_, ?_, ?_, ?_⟩
  · intro r hr
    have := List.of_mem_filter hr
    simpa using this
  · exact countTotals_upsert inst name phone niche sent status totals hinv
  · exact upsertTotal_matching inst name phone niche sent status totals
  · intro qid₂ name₂ niche₂ sent₂ status₂ queue₂
    exact countTotals_upsert inst name₂ phone niche₂ sent₂ status₂ _
      (le_of_eq (countTotals_upsert inst name phone niche sent status totals hinv))

/-- Witness for C6: a failed send for contact 1 removes it from the queue and
    upserts its totals row with `mensagem_enviada = false`; a second pass for
    the same phone leaves a single totals row. -/
theorem queue_consumption_invariant_witness :
    (∀ r ∈ (markContactSent "inst1" 1 (some "Ana") "5531" none false "error"
        [⟨"inst1", 1, some "Ana", "5531", none, "manual", "pending"⟩]
        []).1, r.id ≠ 1) ∧
    countTotals (markContactSent "inst1" 1 (some "Ana") "5531" none false
      "error" [⟨"inst1", 1, some "Ana", "5531", none, "manual", "pending"⟩]
      []).2 "inst1" "5531" = 1 ∧
    (∀ r ∈ (markContactSent "inst1" 1 (some "Ana") "5531" none false "error"
        [⟨"inst1", 1, some "Ana", "5531", none, "manual", "pending"⟩] []).2,
      r.inst = "inst1" → r.phone = "5531" → r.sent = false ∧ r.status = "error") ∧
    (∀ (qid₂ : Nat) (name₂ niche₂ : Option String) (sent₂ : Bool)
        (status₂ : String) (queue₂ : List QueueRow),
      countTotals (markContactSent "inst1" qid₂ name₂ "5531" niche₂ sent₂
        status₂ queue₂ (markContactSent "inst1" 1 (some "Ana") "5531" none
          false "error" [⟨"inst1", 1, some "Ana", "5531", none, "manual",
          "pending"⟩] []).2).2 "inst1" "5531" = 1) :=
  queue_consumption_invariant "inst1" 1 (some "Ana") "5531" none false "error"
    [⟨"inst1", 1, some "Ana", "5531", none, "manual", "pending"⟩] []
    (by decide)

/-! ## C7: already-sent contacts are never re-queued -/

theorem addContact_skips_sent (inst : String) (name : Option String)
    (phone : String) (niche : Option String) (source : String)
    (totals : List TotalRow) (queue : List QueueRow) (freshId : Nat)
    (r : TotalRow)
    (hnp : normalizePhone phone ≠ "")
    (hfind : totals.find?
      (fun t => t.inst == inst && t.phone == normalizePhone phone) = some r)
    (hsent : r.sent = true) :
    addContact inst name phone niche source totals queue freshId =
      (.skippedAlreadySent, queue) := by
  have hp : phone ≠ "" := by
    intro h
    exact hnp (by simp [h, normalizePhone, String.mk])
  simp [addContact, hp, hnp, hfind, hsent]

theorem addContact_preserves_sent_phone (inst : String) (name : Option String)
    (phone : String) (niche : Option String) (source : String)
    (totals : List TotalRow) (queue : List QueueRow) (freshId : Nat)
    (np : String) (r : TotalRow)
    (hfind : totals.find? (fun t => t.inst == inst && t.phone == np) = some r)
    (hsent : r.sent = true) :
    (addContact inst name phone niche source totals queue freshId).2.filter
        (fun q => q.inst == inst && q.phone == np) =
      queue.filter (fun q => q.inst == inst && q.phone == np) := by
  by_cases hp : phone = ""
  · simp [addContact, hp]
  · by_cases hnp0 : normalizePhone phone = ""
    · simp [addContact, hp, hnp0]
    · by_cases heq : normalizePhone phone = np
      · subst heq
        rw [addContact_skips_sent inst name phone niche source totals queue
          freshId r hnp0 hfind hsent]
      · have hnew : (([⟨inst, freshId, name, normalizePhone phone, niche,
            source, "pending"⟩] : List QueueRow).filter
            (fun q => q.inst == inst && q.phone == np)) = [] := by
          have hne : (normalizePhone phone == np) = false := by
            simp only [beq_eq_false_iff_ne, ne_eq]
            exact heq
          simp [List.filter, hne]
        unfold addContact
        rw [if_neg hp, if_neg hnp0]
        cases hfind2 : totals.find?
            (fun t => t.inst == inst && t.phone == normalizePhone phone) with
        | none => simp [List.filter_append, hnew]
        | some t =>
          by_cases hts : t.sent = true
          · simp [hts]
          · simp [hts, List.filter_append, hnew]

theorem importRows_preserves_sent_phone (inst : String)
    (rows : List (Option String × String × Option String))
    (np : String) (r : TotalRow) (totals : List TotalRow)
    (hfind : totals.find? (fun t => t.inst == inst && t.phone == np) = some r)
    (hsent : r.sent = true) :
    ∀ (queue : List QueueRow) (freshId : Nat),
      (importRows inst rows totals queue freshId).2.filter
          (fun q => q.inst == inst && q.phone == np) =
        queue.filter (fun q => q.inst == inst && q.phone == np) := by
  induction rows with
  | nil => intro queue freshId; rfl
  | cons row rest ih =>
    intro queue freshId
    obtain ⟨name, phone, niche⟩ := row
    simp only [importRows]
    have hstep := addContact_preserves_sent_phone inst name phone niche "csv"
      totals queue freshId np r hfind hsent
    match hres : (addContact inst name phone niche "csv" totals queue freshId).1 with
    | .ok id => simpa [ih _ (freshId + 1)] using hstep
    | .skippedAlreadySent => simpa [ih _ (freshId + 1)] using hstep
    | .skippedDuplicateInQueue => simpa [ih _ (freshId + 1)] using hstep
    | .errPhoneRequired => simpa [ih _ (freshId + 1)] using hstep
    | .errPhoneInvalid => simpa [ih _ (freshId + 1)] using hstep

/-- C7.  (i) `add_contact` for a phone whose totals row (keyed on the
    normalized phone) is already marked sent returns
    `{"status": "skipped", "reason": "already_sent"}` and leaves the queue
    untouched.  (ii) CSV import routes every row through `add_contact`, so a
    phone marked sent never re-enters the pending queue that way either: the
    queue rows for that (instance, phone) after an import are exactly those
    before it. -/
theorem already_sent_never_requeued :
    (∀ (inst : String) (name : Option String) (phone : String)
        (niche : Option String) (source : String) (totals : List TotalRow)
        (queue : List QueueRow) (freshId : Nat) (r : TotalRow),
      normalizePhone phone ≠ "" →
      totals.find? (fun t => t.inst == inst &&
        t.phone == normalizePhone phone) = some r →
      r.sent = true →
      addContact inst name phone niche source totals queue freshId =
        (.skippedAlreadySent, queue)) ∧
    (∀ (inst : String) (rows : List (Option String × String × Option String))
        (np : String) (r : TotalRow) (totals : List TotalRow)
        (queue : List QueueRow) (freshId : Nat),
      totals.find? (fun t => t.inst == inst && t.phone == np) = some r →
      r.sent = true →
      (importRows inst rows totals queue freshId).2.filter
          (fun q => q.inst == inst && q.phone == np) =
        queue.filter (fun q => q.inst == inst && q.phone == np)) :=
  ⟨fun inst name phone niche source totals queue freshId r hnp hfind hsent =>
    addContact_skips_sent inst name phone niche source totals queue freshId r
      hnp hfind hsent,
   fun inst rows np r totals queue freshId hfind hsent =>
    (importRows_preserves_sent_phone inst rows np r totals hfind hsent) queue freshId⟩

/-- Witness for C7: with a sent totals row for the normalized phone 5531, a
    manual re-add of the raw phone +55 31 is skipped with reason already_sent
    and a CSV batch containing the same phone adds nothing for it. -/
theorem already_sent_never_requeued_witness :
    addContact "inst1" (some "Ana") "+55 31" none "manual"
        [⟨"inst1", some "Ana", "5531", none, true, "sent", true⟩] [] 7 =
      (.skippedAlreadySent, []) ∧
    (importRows "inst1" [(some "Ana", "+55 31", none)]
        [⟨"inst1", some "Ana", "5531", none, true, "sent", true⟩] [] 7).2.filter
        (fun q => q.inst == "inst1" && q.phone == "5531") = [] :=
  ⟨already_sent_never_requeued.1 "inst1" (some "Ana") "+55 31" none "manual"
      [⟨"inst1", some "Ana", "5531", none, true, "sent", true⟩] [] 7
      ⟨"inst1", some "Ana", "5531", none, true, "sent", true⟩
      (by decide) (by decide) rfl,
   already_sent_never_requeued.2 "inst1" [(some "Ana", "+55 31", none)] "5531"
      ⟨"inst1", some "Ana", "5531", none, true, "sent", true⟩
      [⟨"inst1", some "Ana", "5531", none, true, "sent", true⟩] [] 7
      (by decide) rfl⟩

/-! ## C8: send_menu delivery and memory persistence -/

/-- C8 counterexample.  For a concrete `send_menu` call on a fully configured
    connected instance, the assistant turn written to the ai_memory store
    (the conversation memory `get_history` reads back for the LLM) is the
    rendered numbered menu, not the question text: the trace contains
    `saveMem "assistant" <rendered menu>` and no
    `saveMem "assistant" <question>`; the question goes only to the chat
    message store (`saveMsg "out"`). -/
theorem sendMenu_memory_counterexample :
    processMessage false
        (some ⟨"inst1", some "h", some "tk", some "P", some "connected", none,
               some "configured"⟩)
        (fun _ => none) (fun _ => true)
        (some ⟨none, [⟨"function", "send_menu",
          ⟨none, some "Quer agendar?", some ["sim", "nao"], none⟩⟩]⟩)
        "5599" "olá" "" =
      [.saveMem "user" "olá",
       .sendText (some "h") (some "tk") "5599"
         "Quer agendar?\n\n1. SIM\n2. NAO\n\nEscolha uma opção",
       .saveMsg "out" "Quer agendar?",
       .saveMem "assistant" "Quer agendar?\n\n1. SIM\n2. NAO\n\nEscolha uma opção"] ∧
    Effect.saveMem "assistant" "Quer agendar?" ∉
      processMessage false
        (some ⟨"inst1", some "h", some "tk", some "P", some "connected", none,
               some "configured"⟩)
        (fun _ => none) (fun _ => true)
        (some ⟨none, [⟨"function", "send_menu",
          ⟨none, some "Quer agendar?", some ["sim", "nao"], none⟩⟩]⟩)
        "5599" "olá" "" := by
  exact ⟨by decide, by decide⟩

/-- C8 amended.  On a `send_menu` tool call with question `q`, choices and
    footer, the pipeline delivers the choices rendered as a numbered text
    list with the footer, persists the *question* text as the outbound turn
    of the chat message store (`save_message`), but persists the *rendered
    menu* as the assistant turn of the ai_memory conversation memory — and it
    is that rendered menu that `get_history` later returns as the newest
    assistant entry fed back to the LLM. -/
theorem sendMenu_memory_amended (r : InstanceRow)
    (emailOf : String → Option String) (billing : String → Bool)
    (q : String) (cs : List String) (ft : String)
    (number text gred : String) (mem : List (String × String)) (n : Nat)
    (hprompt : truthyStr r.prompt = true)
    (hadmin : r.adminStatus = some "configured" ∨ r.adminStatus = some "active")
    (hstatus : r.status = some "connected")
    (hq : q ≠ "") :
    processMessage false (some r) emailOf billing
        (some ⟨none, [⟨"function", "send_menu", ⟨none, some q, some cs, some ft⟩⟩]⟩)
        number text gred =
      [.saveMem "user" text,
       .sendText r.uazapiHost r.uazapiToken number (renderMenu q cs ft),
       .saveMsg "out" q,
       .saveMem "assistant" (renderMenu q cs ft)] ∧
    (1 ≤ n →
      (getHistory (mem ++ [("assistant", renderMenu q cs ft)]) n).getLast? =
        some ("assistant", renderMenu q cs ft)) := by
  constructor
  · rcases hadmin with h | h <;>
      simp [processMessage, getInstanceConfig, hprompt, h, hstatus, pyGetD,
        pyGet, List.lookup, llmPhase, orderCalls, splitCalls, execCalls,
        execCall, hq]
  · intro hn
    unfold getHistory
    rw [List.getLast?_reverse]
    match n, hn with
    | Nat.succ m, _ => simp

/-- Witness for C8 amended: concrete instantiation with a two-choice menu and
    a one-entry prior memory. -/
theorem sendMenu_memory_amended_witness :
    processMessage false
        (some ⟨"inst1", some "h", some "tk", some "P", some "connected", none,
               some "active"⟩)
        (fun _ => none) (fun _ => false)
        (some ⟨none, [⟨"function", "send_menu",
          ⟨none, some "Posso te ligar?", some ["sim", "nao"], some "Responda"⟩⟩]⟩)
        "5599" "oi" "" =
      [.saveMem "user" "oi",
       .sendText (some "h") (some "tk") "5599"
         (renderMenu "Posso te ligar?" ["sim", "nao"] "Responda"),
       .saveMsg "out" "Posso te ligar?",
       .saveMem "assistant" (renderMenu "Posso te ligar?" ["sim", "nao"] "Responda")] ∧
    (1 ≤ 20 →
      (getHistory ([("user", "oi")] ++
        [("assistant", renderMenu "Posso te ligar?" ["sim", "nao"] "Responda")])
        20).getLast? =
      some ("assistant", renderMenu "Posso te ligar?" ["sim", "nao"] "Responda")) :=
  sendMenu_memory_amended
    ⟨"inst1", some "h", some "tk", some "P", some "connected", none, some "active"⟩
    (fun _ => none) (fun _ => false) "Posso te ligar?" ["sim", "nao"] "Responda"
    "5599" "oi" "" [("user", "oi")] 20 (by decide) (Or.inr rfl) rfl (by decide)

/-! ## C9: template placeholder substitution -/

/-- C9 counterexample.  Neither rendering path substitutes all five
    documented placeholders.  The `LoopManager` engine leaves `{nome}`,
    `{phone}`, `{niche}` and `{saudacao}` untouched (it substitutes only
    `{name}`), and the legacy admin loop leaves `{name}` untouched: for the
    contact named Ana, a template using `{nome}` together with `{name}` is
    sent with the literal `{nome}` (resp. `{name}`) still in it, instead of
    the fully substituted text the claim requires. -/
theorem template_placeholder_counterexample :
    renderLoopMessage (some "{saudacao}, {nome}! {name}") (some "Ana") =
      "{saudacao}, {nome}! Ana" ∧
    "{saudacao}, {nome}! Ana" ≠ "Boa tarde, Ana! Ana" ∧
    renderAdminMessage "{name} {nome} {phone} {niche} {saudacao}" "Ana" "5531"
        "food" "Boa tarde" = "{name} Ana 5531 food Boa tarde" ∧
    "{name} Ana 5531 food Boa tarde" ≠ "Ana Ana 5531 food Boa tarde" := by
  exact ⟨by decide, by decide, by decide, by decide⟩

/-- C9 amended.  The placeholder set is split across the two renderers: the
    `LoopManager` engine substitutes exactly `{name}` (and attempts the
    `{{name}}` variant, left-to-right after the `{name}` pass), defaulting
    the template to "Olá {name}, tudo bem?"; the legacy admin automation loop
    substitutes exactly `{nome}`, `{phone}`, `{niche}` and `{saudacao}`, with
    the greeting picked from the Brasília hour; no single path supports all
    five placeholders. -/
theorem template_placeholder_amended :
    renderLoopMessage (some "Oi {name}, {nome} {phone} {niche} {saudacao}")
        (some "Ana") = "Oi Ana, {nome} {phone} {niche} {saudacao}" ∧
    renderLoopMessage none (some "Ana") = "Olá Ana, tudo bem?" ∧
    renderLoopMessage none none = "Olá , tudo bem?" ∧
    renderLoopMessage (some "") (some "Ana") = "Olá Ana, tudo bem?" ∧
    renderAdminMessage "{saudacao} {nome} ({niche}): {phone} {name}" "Ana"
        "5531" "food" (saudacaoFor 14) = "Boa tarde Ana (food): 5531 {name}" ∧
    saudacaoFor 9 = "Bom dia" ∧ saudacaoFor 14 = "Boa tarde" ∧
    saudacaoFor 20 = "Boa noite" := by
  exact ⟨by decide, by decide, by decide, by decide, by decide, by decide,
    by decide, by decide⟩

end Luna
